import Mathlib

/-!
Verification development for the video-processing pipeline of the
`ai-youtuber-studio` backend (`backend/app/services/` and
`backend/app/api/content_studio.py`).

The Python sources are shallowly embedded as pure Lean functions:
* the database row `Video` becomes the record `VideoRec`, and database
  writes become explicit record updates;
* the ChromaDB collection becomes a list of `ChunkRec` records;
* each fallible external call (yt-dlp download, Whisper transcription,
  storage fetch + embedding + vector-store add) becomes an input oracle
  (`DownloadResult`, `ProviderCall`, `Except String Nat`), so that one
  invocation of the orchestrator is a pure function of the oracle values
  and the starting row.
-/

/-! ## Chunking (`VectorStore.chunk_transcript`, vector_store.py lines 46-81)

The Python code splits the transcript on whitespace (`text.split()`),
then greedily accumulates words; `current_length` counts
`len(word) + 1` per word.  Once `current_length >= chunk_size` the
accumulated words are emitted as a chunk and the last
`int(overlap / 10)` words are retained as the start of the next chunk
(`current_chunk[-overlap_words:]`, which is the whole list when it is
shorter than `overlap_words`); a nonempty remainder is flushed as a
final chunk.  We model the word list directly; `splitWords` performs
the whitespace split and `joinSpace` is `" ".join`.
-/

set_option maxRecDepth 100000

/-- Model of `" ".join(words)`: words glued with a single space separator. -/
def joinSpace : List String → String
  | [] => ""
  | [w] => w
  | w :: ws => w ++ " " ++ joinSpace ws

/-- Helper for `splitWords`: scan the character list, accumulating the
current word in reverse; a whitespace character ends the current word
(if any), and a trailing word is flushed at the end. -/
def splitCharsAux : List Char → List Char → List String
  | [], acc => if acc.isEmpty then [] else [String.mk acc.reverse]
  | c :: cs, acc =>
      if c.isWhitespace then
        if acc.isEmpty then splitCharsAux cs []
        else String.mk acc.reverse :: splitCharsAux cs []
      else splitCharsAux cs (c :: acc)

/-- Python `text.split()` with no argument: split on runs of whitespace,
producing no empty words. -/
def splitWords (s : String) : List String := splitCharsAux s.data []

/-- Weight `current_length` of an accumulated word list: `len(word) + 1` per word
(the `+ 1` is the space accounted for each word, vector_store.py line 67
and line 74). -/
def wsum (l : List String) : Nat := (l.map (fun w => w.length + 1)).sum

/-- Model of `current_chunk[-overlap_words:] if overlap_words > 0 else []`
(vector_store.py line 73): the last `ow` words, or the whole list when it
has fewer than `ow` words, or `[]` when `ow = 0`. -/
def carryOf (ow : Nat) (c : List String) : List String :=
  if 0 < ow then c.drop (c.length - ow) else []

/-- The accumulation loop of `chunk_transcript` (vector_store.py lines
65-78) over the remaining words, with `cur` the current partial chunk.
A word is appended first; if the accumulated weight reaches
`chunk_size` the chunk is emitted and the overlap tail carried over;
a nonempty remainder is flushed at the end. -/
def chunkAux (csize ow : Nat) : List String → List String → List (List String)
  | [], cur => if cur.isEmpty then [] else [cur]
  | w :: ws, cur =>
      if csize ≤ wsum (cur ++ [w]) then
        (cur ++ [w]) :: chunkAux csize ow ws (carryOf ow (cur ++ [w]))
      else
        chunkAux csize ow ws (cur ++ [w])

/-- Model of `chunk_transcript` at the word level, starting from an empty chunk.
`ow` is already the word-count overlap `int(overlap / 10)`. -/
def chunkWords (csize ow : Nat) (ws : List String) : List (List String) :=
  chunkAux csize ow ws []

/-- The token decomposition of the chunks produced by
`chunk_transcript text chunk_size overlap`. -/
def chunkTokens (text : String) (csize overlap : Nat) : List (List String) :=
  chunkWords csize (overlap / 10) (splitWords text)

/-- Model of `VectorStore.chunk_transcript(transcript_text, chunk_size, overlap)`:
the emitted chunks as strings (`" ".join(current_chunk)`). -/
def chunk_transcript (text : String) (csize overlap : Nat) : List String :=
  (chunkTokens text csize overlap).map joinSpace

/-- Removing from each chunk the tokens carried over from the previous
chunk: the first chunk is kept whole (`prev = []` initially), every
later chunk drops the length of the overlap tail of its predecessor. -/
def reconAux (ow : Nat) : List String → List (List String) → List String
  | _, [] => []
  | prev, c :: cs => c.drop prev.length ++ reconAux ow (carryOf ow c) cs

/-- De-overlapped concatenation of a chunk sequence. -/
def recon (ow : Nat) (cs : List (List String)) : List String :=
  reconAux ow [] cs

/-! ## The vector index (`VectorStore`, vector_store.py lines 83-164
and 249-267)

The ChromaDB collection `video_transcripts` is modelled as a list of
chunk records.  Embedding vectors do not influence chunk IDs, counts or
metadata, so they are omitted from the record. -/

/-- The optional item-metrics snapshot passed to `index_transcript`
(`views`, `likes`, `title`, `duration`). -/
structure MetricsIn where
  views : Nat
  likes : Nat
  title : String
  duration : Nat
deriving DecidableEq, Repr

/-- Transcript payload: `transcript_data.get("text", "")` and
`transcript_data.get("language", "unknown")` are the only fields
`index_transcript` reads. -/
structure TranscriptData where
  text : String
  language : Option String
deriving DecidableEq, Repr

/-- One record of the collection: ID, document text and the chunk
metadata built in vector_store.py lines 124-145. -/
structure ChunkRec where
  id : String
  doc : String
  video_id : String
  youtube_video_id : String
  chunk_index : Nat
  total_chunks : Nat
  language : String
  extras : Option MetricsIn
deriving DecidableEq, Repr

/-- Model of `collection.add(ids, embeddings, documents, metadatas)`: ChromaDB
keeps the existing record when an added ID already exists in the
collection (it warns `Insert of existing embedding ID` and skips the
duplicate); records with new IDs are appended.  Note there is no delete
here: `index_transcript` never removes anything. -/
def collection_add (col new : List ChunkRec) : List ChunkRec :=
  col ++ new.filter (fun c => !((col.map (fun c0 => c0.id)).contains c.id))

/-- The chunk records built by the loop of vector_store.py lines
124-145: ID `{youtube_video_id}_chunk_{i}`, `chunk_index i`,
`total_chunks = len(chunks)`, language defaulting to `"unknown"`, and
the optional metrics snapshot with the title truncated to 100
characters. -/
def chunkRecsOf (video_id youtube_video_id : String) (td : TranscriptData)
    (metadata : Option MetricsIn) (chunks : List String) : List ChunkRec :=
  ((List.range chunks.length).zip chunks).map (fun p =>
    { id := youtube_video_id ++ "_chunk_" ++ toString p.1
      doc := p.2
      video_id := video_id
      youtube_video_id := youtube_video_id
      chunk_index := p.1
      total_chunks := chunks.length
      language := td.language.getD "unknown"
      extras := metadata.map (fun m => { m with title := m.title.take 100 }) })

/-- Model of `VectorStore.index_transcript` (vector_store.py lines 83-164): raise
`ValueError("Transcript text is empty")` on empty text, otherwise chunk
with the default parameters `chunk_size=500, overlap=50`, build the
chunk records and add them to the collection, returning the number of
chunks of this run.  The embedding call is a pure passthrough for the
properties considered here. -/
def index_transcript (col : List ChunkRec) (video_id youtube_video_id : String)
    (transcript_data : TranscriptData) (metadata : Option MetricsIn) :
    Except String (Nat × List ChunkRec) :=
  if transcript_data.text = "" then Except.error "Transcript text is empty"
  else
    Except.ok ((chunk_transcript transcript_data.text 500 50).length,
      collection_add col (chunkRecsOf video_id youtube_video_id transcript_data metadata
        (chunk_transcript transcript_data.text 500 50)))

/-- Model of `VectorStore.delete_video` (vector_store.py lines 249-267): fetch
all chunk IDs whose metadata `youtube_video_id` matches and delete
them; the net effect is removing every record of that video. -/
def delete_video (col : List ChunkRec) (youtube_video_id : String) : List ChunkRec :=
  col.filter (fun c => c.youtube_video_id != youtube_video_id)

/-! ## Pipeline orchestration (`pipeline_worker.py`, and the endpoint
`process_video_pipeline` of `content_studio.py` lines 261-368)

The database row is the record `VideoRec`; each stage's external
outcome is an oracle input.  `download_audio` and `transcribe_audio`
catch their own exceptions and return result dictionaries, so their
oracles are returned values; everything that can raise inside the
worker's indexing step (storage fetch, JSON decode, provider and
`VectorStore` construction, `index_transcript`) is one `Except`
oracle. -/

/-- Status enum `VideoProcessingStatus` (models.py lines 8-17). -/
inductive VStatus where
  | SYNCED
  | AUDIO_DOWNLOADING
  | AUDIO_DOWNLOADED
  | TRANSCRIBING
  | TRANSCRIBED
  | INDEXING
  | COMPLETE
  | ERROR
deriving DecidableEq, Repr

/-- The pipeline-relevant columns of the `videos` table (models.py lines
45-69); `indexed_at_set` abstracts the `indexed_at` timestamp to
whether it has been written. -/
structure VideoRec where
  id : Nat
  youtube_video_id : String
  title : String
  audio_s3_key : Option String
  transcript_s3_key : Option String
  processing_status : VStatus
  processing_error : Option String
  indexed_at_set : Bool
deriving DecidableEq, Repr

/-- Model of `update_video_status` (pipeline_worker.py lines 22-41) on a found
row: always writes the status; writes the error only when the message
is truthy (`if error:`), i.e. not `None` and not the empty string. -/
def update_video_status (v : VideoRec) (status : VStatus)
    (error : Option String) : VideoRec :=
  { v with
    processing_status := status
    processing_error :=
      match error with
      | some msg => if msg = "" then v.processing_error else some msg
      | none => v.processing_error }

/-- The dictionary returned by `download_audio` (ingest_worker.py lines
86-101): `success`/`status`, the produced `s3_key` on success, and the
`error` message on failure (`None` models an absent key, read through
`.get`). -/
structure DownloadResult where
  success : Bool
  status : String
  s3_key : String
  error : Option String
deriving DecidableEq, Repr

/-- What the Whisper API returned: full text, detected language and the
number of segments. -/
structure WhisperResponse where
  text : String
  language : String
  segments_count : Nat
deriving DecidableEq, Repr

/-- Outcome of the speech-to-text provider call inside
`transcribe_audio` (including the storage download): either a response
or a raised exception with its message. -/
inductive ProviderCall where
  | ok (resp : WhisperResponse)
  | exn (msg : String)
deriving DecidableEq, Repr

/-- The dictionary returned by `transcribe_audio` (transcribe_worker.py
lines 103-113 on success, 123-128 on failure). -/
structure TranscribeResult where
  success : Bool
  status : String
  transcript_s3_key : Option String
  error : Option String
  transcript_text : Option String
  language : Option String
  segments_count : Nat
deriving DecidableEq, Repr

/-- Model of `transcribe_audio` (transcribe_worker.py lines 17-128): any raised
exception is caught and converted into a failure dictionary; a provider
response — whatever its text, including the empty string — is uploaded
under `transcripts/{video_id}.json` and reported as success.  There is
no empty-text check. -/
def transcribe_audio (call : ProviderCall) (s3_key : String)
    (video_id : String) : TranscribeResult :=
  match call with
  | ProviderCall.exn msg =>
      { success := false
        status := "error"
        transcript_s3_key := none
        error := some msg
        transcript_text := none
        language := none
        segments_count := 0 }
  | ProviderCall.ok resp =>
      { success := true
        status := "success"
        transcript_s3_key := some ("transcripts/" ++ video_id ++ ".json")
        error := none
        transcript_text := some resp.text
        language := some resp.language
        segments_count := resp.segments_count }

/-- Oracle inputs for one run of the worker pipeline. -/
structure PipelineEnv where
  audioResult : DownloadResult
  whisper : ProviderCall
  indexResult : Except String Nat

/-- The dictionary returned by `process_video_pipeline`. -/
structure PipelineResult where
  success : Bool
  error : Option String
  step : Option String
  chunks_indexed : Option Nat
  audio_s3_key : Option String
  transcript_s3_key : Option String
deriving DecidableEq, Repr

/-- Result of one worker run: the returned dictionary, the final row
state, and which stages were invoked. -/
structure PipelineTrace where
  result : PipelineResult
  video : VideoRec
  downloadInvoked : Bool
  transcribeInvoked : Bool
  indexInvoked : Bool
deriving DecidableEq, Repr

/-- The `try:` body of the worker task `process_video_pipeline`
(pipeline_worker.py lines 67-168), including the generic
`except Exception` handler for the indexing step.  Note that Step 1
invokes `download_audio` unconditionally — there is no check of
`audio_s3_key` — and that a failure inside Step 3 is only caught by the
generic handler, which reports `step: "unknown"`. -/
def process_pipeline_body (env : PipelineEnv) (v : VideoRec) : PipelineTrace :=
  let v1 := update_video_status v VStatus.AUDIO_DOWNLOADING none
  if env.audioResult.success then
    let akey := env.audioResult.s3_key
    let v2 := { v1 with
      audio_s3_key := some akey
      processing_status := VStatus.AUDIO_DOWNLOADED }
    let v3 := update_video_status v2 VStatus.TRANSCRIBING none
    let tr := transcribe_audio env.whisper akey v.youtube_video_id
    if tr.success then
      let tkey := tr.transcript_s3_key.getD ""
      let v4 := { v3 with
        transcript_s3_key := some tkey
        processing_status := VStatus.TRANSCRIBED }
      let v5 := update_video_status v4 VStatus.INDEXING none
      match env.indexResult with
      | Except.ok n =>
          { result := { success := true, error := none, step := none
                        chunks_indexed := some n, audio_s3_key := some akey
                        transcript_s3_key := some tkey }
            video := { v5 with
              processing_status := VStatus.COMPLETE
              indexed_at_set := true }
            downloadInvoked := true
            transcribeInvoked := true
            indexInvoked := true }
      | Except.error msg =>
          { result := { success := false, error := some msg
                        step := some "unknown", chunks_indexed := none
                        audio_s3_key := none, transcript_s3_key := none }
            video := update_video_status v5 VStatus.ERROR (some msg)
            downloadInvoked := true
            transcribeInvoked := true
            indexInvoked := true }
    else
      let msg := tr.error.getD "Unknown transcription error"
      { result := { success := false, error := some msg
                    step := some "transcription", chunks_indexed := none
                    audio_s3_key := none, transcript_s3_key := none }
        video := update_video_status v3 VStatus.ERROR (some msg)
        downloadInvoked := true
        transcribeInvoked := true
        indexInvoked := false }
  else
    let msg := env.audioResult.error.getD "Unknown audio download error"
    { result := { success := false, error := some msg
                  step := some "audio_download", chunks_indexed := none
                  audio_s3_key := none, transcript_s3_key := none }
      video := update_video_status v1 VStatus.ERROR (some msg)
      downloadInvoked := true
      transcribeInvoked := false
      indexInvoked := false }

/-- The top-level names defined by `app/services/llm_provider.py`
(llm_provider.py lines 5 and 19). -/
def llm_provider_defs : List String := ["LLMProvider", "get_llm_provider"]

/-- Outcome of calling the worker task: either an exception escapes
(with the row in the state it had at that point) or the body returns. -/
inductive PipelineOutcome where
  | raised (msg : String) (video : VideoRec)
  | returned (t : PipelineTrace)
deriving Repr

/-- The worker task `process_video_pipeline` (pipeline_worker.py lines
44-168).  Its first statements, before the `try:` block, are imports;
line 61 is `from app.services.llm_provider import get_provider`, which
succeeds only if `llm_provider.py` defines that name.  When the import
fails the `ImportError` propagates out of the task with no status
written. -/
def process_video_pipeline (env : PipelineEnv) (v : VideoRec) : PipelineOutcome :=
  if llm_provider_defs.contains "get_provider" then
    PipelineOutcome.returned (process_pipeline_body env v)
  else
    PipelineOutcome.raised
      "ImportError: cannot import name get_provider from app.services.llm_provider" v

/-- One entry of the endpoint's `pipeline_status["steps"]` list. -/
structure StepEntry where
  step : String
  status : String
  error : Option String
  reason : Option String
  chunks_indexed : Option Nat
deriving DecidableEq, Repr

/-- Oracle inputs for the endpoint: the two Celery task waits
(`.delay(...).get(timeout=...)`, which can raise, e.g. on timeout) and
the outcome of the indexing step. -/
structure EndpointEnv where
  audioTask : Except String DownloadResult
  transcribeTask : Except String TranscribeResult
  indexOutcome : Except String Nat

/-- Result of one call of the endpoint: the step list, the final row,
which stages were invoked, and the `complete` flag (absent on the early
returns of content_studio.py lines 311, 314, 331 and 334). -/
structure EndpointTrace where
  steps : List StepEntry
  video : VideoRec
  downloadInvoked : Bool
  transcribeInvoked : Bool
  indexInvoked : Bool
  complete : Option Bool
deriving Repr

/-- Check `step["status"] in ["success", "skipped"]` (content_studio.py line
366). -/
def stepOkB (s : StepEntry) : Bool := s.status == "success" || s.status == "skipped"

/-- Step 3 of the endpoint (content_studio.py lines 338-368): always
attempt indexing; an indexing failure appends a failed step but does
not return early; finally the `complete` flag is computed over all
steps. -/
def endpointStep3 (env : EndpointEnv) (v : VideoRec) (steps : List StepEntry)
    (dl tr : Bool) : EndpointTrace :=
  match env.indexOutcome with
  | Except.ok n =>
      let steps2 := steps ++ [⟨"vector_index", "success", none, none, some n⟩]
      ⟨steps2, v, dl, tr, true, some (steps2.all stepOkB)⟩
  | Except.error e =>
      let steps2 := steps ++ [⟨"vector_index", "failed", some e, none, none⟩]
      ⟨steps2, v, dl, tr, true, some (steps2.all stepOkB)⟩

/-- Step 2 of the endpoint (content_studio.py lines 318-336): skipped
whenever `transcript_s3_key` is already set; otherwise wait for
`transcribe_audio` and return early on failure. -/
def endpointStep2 (env : EndpointEnv) (v : VideoRec) (steps : List StepEntry)
    (dl : Bool) : EndpointTrace :=
  match v.transcript_s3_key with
  | some _ =>
      endpointStep3 env v
        (steps ++ [⟨"transcribe", "skipped", none, some "already exists", none⟩]) dl false
  | none =>
      match env.transcribeTask with
      | Except.error e =>
          ⟨steps ++ [⟨"transcribe", "failed", some e, none, none⟩], v, dl, true, false, none⟩
      | Except.ok tr =>
          if tr.status = "success" then
            endpointStep3 env
              { v with transcript_s3_key := some (tr.transcript_s3_key.getD "") }
              (steps ++ [⟨"transcribe", "success", none, none, none⟩]) dl true
          else
            ⟨steps ++ [⟨"transcribe", "failed", tr.error, none, none⟩], v, dl, true, false, none⟩

/-- The API endpoint `process_video_pipeline` of content_studio.py
(lines 261-368), after the ownership checks: Step 1 is skipped whenever
`audio_s3_key` is already set (line 299), otherwise the audio task runs
and a failure returns early. -/
def content_studio_pipeline (env : EndpointEnv) (v : VideoRec) : EndpointTrace :=
  match v.audio_s3_key with
  | some _ =>
      endpointStep2 env v [⟨"audio_download", "skipped", none, some "already exists", none⟩] false
  | none =>
      match env.audioTask with
      | Except.error e =>
          ⟨[⟨"audio_download", "failed", some e, none, none⟩], v, true, false, false, none⟩
      | Except.ok ar =>
          if ar.status = "success" then
            endpointStep2 env { v with audio_s3_key := some ar.s3_key }
              [⟨"audio_download", "success", none, none, none⟩] true
          else
            ⟨[⟨"audio_download", "failed", ar.error, none, none⟩], v, true, false, false, none⟩


/-! ## Theorems -/

/-! ### Structural facts about the accumulation loop -/

/-- The loop never returns an empty chunk list when it starts with a
nonempty partial chunk: the partial chunk is flushed at the latest at
the end of the input. -/
theorem chunkAux_ne_nil (csize ow : Nat) :
    ∀ (ws cur : List String), cur ≠ [] → chunkAux csize ow ws cur ≠ [] := by
  intro ws
  induction ws with
  | nil =>
      intro cur h
      cases cur with
      | nil => exact absurd rfl h
      | cons a l => simp [chunkAux]
  | cons w ws ih =>
      intro cur h
      by_cases hc : csize ≤ wsum (cur ++ [w])
      · simp [chunkAux, hc]
      · simp only [chunkAux]
        rw [if_neg hc]
        exact ih (cur ++ [w]) (by simp)

/-- The first chunk the loop produces extends the partial chunk it
started with: it is `cur ++ t` for some suffix `t` of new words. -/
theorem chunkAux_head_ext (csize ow : Nat) :
    ∀ (ws cur c : List String) (cs : List (List String)),
      chunkAux csize ow ws cur = c :: cs → ∃ t, c = cur ++ t := by
  intro ws
  induction ws with
  | nil =>
      intro cur c cs h
      cases cur with
      | nil => simp [chunkAux] at h
      | cons a l =>
          simp only [chunkAux, List.isEmpty_cons, Bool.false_eq_true,
            if_false] at h
          injection h with h1 h2
          exact ⟨[], by simp [← h1]⟩
  | cons w ws ih =>
      intro cur c cs h
      by_cases hc : csize ≤ wsum (cur ++ [w])
      · simp only [chunkAux] at h
        rw [if_pos hc] at h
        injection h with h1 h2
        exact ⟨[w], h1.symm⟩
      · simp only [chunkAux] at h
        rw [if_neg hc] at h
        obtain ⟨t, ht⟩ := ih (cur ++ [w]) c cs h
        exact ⟨w :: t, by simp [ht]⟩

/-- Round-trip of the loop: dropping from each chunk the part carried
over from its predecessor (for the first chunk, the partial chunk
`cur`) and concatenating recovers exactly the list of words consumed. -/
theorem reconAux_chunkAux (csize ow : Nat) :
    ∀ (ws cur : List String), reconAux ow cur (chunkAux csize ow ws cur) = ws := by
  intro ws
  induction ws with
  | nil =>
      intro cur
      cases cur with
      | nil => simp [chunkAux, reconAux]
      | cons a l => simp [chunkAux, reconAux, List.drop_length]
  | cons w ws ih =>
      intro cur
      by_cases hc : csize ≤ wsum (cur ++ [w])
      · simp only [chunkAux]
        rw [if_pos hc]
        simp only [reconAux]
        rw [List.drop_left, ih (carryOf ow (cur ++ [w]))]
        simp
      · simp only [chunkAux]
        rw [if_neg hc]
        rcases hres : chunkAux csize ow ws (cur ++ [w]) with _ | ⟨c, cs⟩
        · exact absurd hres (chunkAux_ne_nil csize ow ws (cur ++ [w]) (by simp))
        · obtain ⟨t, ht⟩ := chunkAux_head_ext csize ow ws (cur ++ [w]) c cs hres
          have hih := ih (cur ++ [w])
          rw [hres] at hih
          simp only [reconAux] at hih ⊢
          subst ht
          rw [List.drop_left] at hih
          have hdrop : ((cur ++ [w]) ++ t).drop cur.length = [w] ++ t := by
            rw [List.append_assoc]
            exact List.drop_left cur ([w] ++ t)
          rw [hdrop, List.append_assoc, hih]
          simp

/-- Claim C7 (chunking round-trip), token level, for arbitrary text and
parameters. -/
theorem chunking_round_trip_core (text : String) (csize overlap : Nat) :
    recon (overlap / 10) (chunkTokens text csize overlap) = splitWords text :=
  reconAux_chunkAux csize (overlap / 10) (splitWords text) []

/-- Chunks emitted inside the loop (all but possibly the last chunk of
the output) have accumulated weight at least `chunk_size`: the loop only
emits once `current_length >= chunk_size`. -/
theorem chunkAux_dropLast_ge (csize ow : Nat) :
    ∀ (ws cur : List String), ∀ c ∈ (chunkAux csize ow ws cur).dropLast,
      csize ≤ wsum c := by
  intro ws
  induction ws with
  | nil =>
      intro cur c hc
      cases cur with
      | nil => simp [chunkAux] at hc
      | cons a l => simp [chunkAux] at hc
  | cons w ws ih =>
      intro cur c hc
      by_cases hcs : csize ≤ wsum (cur ++ [w])
      · rcases hrest : chunkAux csize ow ws (carryOf ow (cur ++ [w]))
          with _ | ⟨r, rs⟩
        · simp [chunkAux, hcs, hrest] at hc
        · have heq : chunkAux csize ow (w :: ws) cur
              = (cur ++ [w]) :: r :: rs := by
            simp only [chunkAux]
            rw [if_pos hcs, hrest]
          rw [heq] at hc
          simp only [List.dropLast, List.mem_cons] at hc
          rcases hc with hc | hc
          · subst hc; exact hcs
          · refine ih (carryOf ow (cur ++ [w])) c ?_
            rw [hrest]
            exact hc
      · simp only [chunkAux] at hc
        rw [if_neg hcs] at hc
        exact ih (cur ++ [w]) c hc

/-- Claim C10: `chunk_size` is an emission threshold, not an upper
bound.  Every chunk emitted inside the accumulation loop (every chunk
except possibly the final remainder) has accumulated character weight
(token lengths plus one separator per token) at least `chunk_size`, and
a single token longer than `chunk_size` is emitted as a chunk whose
joined text is strictly longer than `chunk_size`. -/
theorem chunk_size_is_lower_bound (text : String) (csize overlap : Nat)
    (hcs : 0 < csize) :
    (∀ c ∈ (chunkTokens text csize overlap).dropLast, csize ≤ wsum c) ∧
    (∀ w : String, csize < w.length →
      ∃ c, c ∈ chunkWords csize (overlap / 10) [w] ∧
        csize < (joinSpace c).length) := by
  constructor
  · exact chunkAux_dropLast_ge csize (overlap / 10) (splitWords text) []
  · intro w hw
    have hle : csize ≤ wsum ([] ++ [w]) := by
      simp [wsum]
      omega
    refine ⟨[w], ?_, ?_⟩
    · have h1 : chunkWords csize (overlap / 10) [w]
          = [w] :: chunkAux csize (overlap / 10) [] (carryOf (overlap / 10) [w]) := by
        simp only [chunkWords, chunkAux]
        rw [if_pos hle]
        simp
      rw [h1]
      exact List.mem_cons_self _ _
    · simpa [joinSpace] using hw

/-- Witness for `chunk_size_is_lower_bound` at `chunk_size = 7`,
`overlap = 50`, on the text `"aa bb cc dd"`. -/
theorem chunk_size_is_lower_bound_witness :
    (∀ c ∈ (chunkTokens "aa bb cc dd" 7 50).dropLast, 7 ≤ wsum c) ∧
    (∀ w : String, 7 < w.length →
      ∃ c, c ∈ chunkWords 7 (50 / 10) [w] ∧ 7 < (joinSpace c).length) :=
  chunk_size_is_lower_bound "aa bb cc dd" 7 50 (by decide)

/-- Claim C2, counterexample: indexing the same external ID
(`"abc123"`) twice in succession does not leave exactly the second
run's chunks.  The first run (a 499-character transcript) stores 2
chunks; the second run (transcript `"hi"`) indexes 1 chunk, yet the
collection afterwards still holds 2 records, among them
`abc123_chunk_1` produced by the first run — which is not `1`. -/
theorem reindex_leaves_prior_chunks_counterexample :
    ((index_transcript [] "42" "abc123"
        ⟨String.mk (List.replicate 499 'a'), some "en"⟩ none).bind (fun p1 =>
      (index_transcript p1.2 "42" "abc123" ⟨"hi", some "en"⟩ none).map (fun p2 =>
        (p2.1, p2.2.length, p2.2.map (fun c => c.id)))))
      = Except.ok (1, 2, ["abc123_chunk_0", "abc123_chunk_1"])
    ∧ (2 : Nat) ≠ 1 := by
  exact ⟨by rfl, by decide⟩

/-- Claim C2 amended: `index_transcript` performs no removal at all —
every chunk already in the collection is still there after a call (so
re-indexing an item leaves the previous run's chunks alongside the new
ones); the metadata-filtered removal exists only as the separate
`delete_video` operation, which `index_transcript` never invokes. -/
theorem index_transcript_never_deletes (col : List ChunkRec)
    (vid yvid : String) (td : TranscriptData) (m : Option MetricsIn)
    (n : Nat) (col2 : List ChunkRec)
    (h : index_transcript col vid yvid td m = Except.ok (n, col2)) :
    (∀ c ∈ col, c ∈ col2) ∧
    (∀ c : ChunkRec, c ∈ delete_video col yvid ↔
      c ∈ col ∧ c.youtube_video_id ≠ yvid) := by
  constructor
  · intro c hc
    unfold index_transcript at h
    by_cases ht : td.text = ""
    · rw [if_pos ht] at h
      exact absurd h (by simp)
    · rw [if_neg ht] at h
      injection h with h1
      injection h1 with h2 h3
      rw [← h3]
      unfold collection_add
      exact List.mem_append_left _ hc
  · intro c
    simp [delete_video, List.mem_filter]

/-- Witness for `index_transcript_never_deletes` on an empty collection
and the transcript `"hi"`. -/
theorem index_transcript_never_deletes_witness :
    (∀ c ∈ ([] : List ChunkRec),
      c ∈ [(⟨"y_chunk_0", "hi", "1", "y", 0, 1, "en", none⟩ : ChunkRec)]) ∧
    (∀ c : ChunkRec, c ∈ delete_video [] "y" ↔
      c ∈ ([] : List ChunkRec) ∧ c.youtube_video_id ≠ "y") :=
  index_transcript_never_deletes [] "1" "y" ⟨"hi", some "en"⟩ none 1
    [⟨"y_chunk_0", "hi", "1", "y", 0, 1, "en", none⟩] (by rfl)

/-- Claim C8: a 1200-character transcript made of whitespace-separated
words with no other break structure, chunked with `chunk_size=500`,
`overlap=50`, yields exactly 3 chunks, and indexing it for external ID
`"abc123"` assigns them `chunk_index` 0, 1, 2 with `total_chunks = 3`
and IDs `abc123_chunk_0`, `abc123_chunk_1`, `abc123_chunk_2`. -/
theorem scenario_1200_chars_three_chunks :
    (joinSpace (List.replicate 299 "abc" ++ ["abcd"])).length = 1200 ∧
    (chunk_transcript (joinSpace (List.replicate 299 "abc" ++ ["abcd"])) 500 50).length = 3 ∧
    ((index_transcript [] "42" "abc123"
        ⟨joinSpace (List.replicate 299 "abc" ++ ["abcd"]), some "en"⟩
        none).toOption.map (fun p =>
          (p.1, p.2.map (fun c => (c.chunk_index, c.total_chunks, c.id)))))
      = some (3, [(0, 3, "abc123_chunk_0"), (1, 3, "abc123_chunk_1"),
          (2, 3, "abc123_chunk_2")]) := by
  refine ⟨by decide, by decide, by decide⟩

/-! ## Theorems about the orchestration -/

/-- The worker body invokes the fetch stage on every run, whatever the
row state. -/
theorem body_always_fetches (env : PipelineEnv) (v : VideoRec) :
    (process_pipeline_body env v).downloadInvoked = true := by
  cases h1 : env.audioResult.success <;>
    cases h3 : env.indexResult <;>
      cases h2 : (transcribe_audio env.whisper env.audioResult.s3_key
          v.youtube_video_id).success <;>
        simp [process_pipeline_body, h1, h2, h3]

/-- Step 3 of the endpoint passes the invocation flags through. -/
theorem endpointStep3_flags (env : EndpointEnv) (v : VideoRec)
    (steps : List StepEntry) (dl tr : Bool) :
    (endpointStep3 env v steps dl tr).downloadInvoked = dl ∧
    (endpointStep3 env v steps dl tr).transcribeInvoked = tr := by
  unfold endpointStep3
  split <;> exact ⟨rfl, rfl⟩

/-- Step 2 of the endpoint passes the download flag through. -/
theorem endpointStep2_download_flag (env : EndpointEnv) (v : VideoRec)
    (steps : List StepEntry) (dl : Bool) :
    (endpointStep2 env v steps dl).downloadInvoked = dl := by
  unfold endpointStep2
  split
  · exact (endpointStep3_flags env _ _ dl false).1
  · split
    · rfl
    · split
      · exact (endpointStep3_flags env _ _ dl true).1
      · rfl

/-- Fact: `update_video_status` only touches `processing_status` and
`processing_error`; the error is written only for a truthy message. -/
theorem update_video_status_fields (v : VideoRec) (s : VStatus) (e : Option String) :
    (update_video_status v s e).processing_status = s ∧
    (update_video_status v s e).audio_s3_key = v.audio_s3_key ∧
    (update_video_status v s e).transcript_s3_key = v.transcript_s3_key ∧
    (∀ msg, msg ≠ "" →
      (update_video_status v s (some msg)).processing_error = some msg) := by
  refine ⟨rfl, rfl, rfl, fun msg hm => ?_⟩
  simp [update_video_status, hm]

/-- The worker body never clears the stored keys: a key that is `none`
after the run was already `none` before it. -/
theorem body_keys_monotone (env : PipelineEnv) (v : VideoRec) :
    ((process_pipeline_body env v).video.audio_s3_key = none →
      v.audio_s3_key = none) ∧
    ((process_pipeline_body env v).video.transcript_s3_key = none →
      v.transcript_s3_key = none) := by
  cases h1 : env.audioResult.success <;> cases hw : env.whisper <;>
    cases h3 : env.indexResult <;>
      simp [process_pipeline_body, h1, hw, h3, transcribe_audio, update_video_status]

/-- An error slot that is `none` after a conditional write was `none`
before it: the write either keeps the old value or stores `some`. -/
theorem ite_error_none {c : Prop} [Decidable c] (a : Option String) (m : String)
    (h : (if c then a else some m) = none) : a = none := by
  by_cases hc : c
  · rwa [if_pos hc] at h
  · rw [if_neg hc] at h
    exact absurd h (by simp)

/-- The worker body never erases a stored error: a `processing_error`
that is `none` after the run was already `none` before it. -/
theorem body_error_monotone (env : PipelineEnv) (v : VideoRec) :
    (process_pipeline_body env v).video.processing_error = none →
    v.processing_error = none := by
  cases h1 : env.audioResult.success <;> cases hw : env.whisper <;>
    cases h3 : env.indexResult <;>
      simp only [process_pipeline_body, transcribe_audio, update_video_status,
        h1, hw, h3] <;>
      intro h <;>
      first
        | exact ite_error_none _ _ h
        | exact h

/-- Step 2 of the endpoint runs the transcriber exactly when
`transcript_s3_key` is unset. -/
theorem endpointStep2_transcribe_flag (env : EndpointEnv) (v : VideoRec)
    (steps : List StepEntry) (dl : Bool) :
    (v.transcript_s3_key = none →
      (endpointStep2 env v steps dl).transcribeInvoked = true) ∧
    (v.transcript_s3_key ≠ none →
      (endpointStep2 env v steps dl).transcribeInvoked = false) := by
  cases ht : v.transcript_s3_key with
  | none =>
      refine ⟨fun _ => ?_, fun h => absurd rfl h⟩
      cases he : env.transcribeTask with
      | error e => simp [endpointStep2, ht, he]
      | ok tr =>
          by_cases hs : tr.status = "success"
          · have h3 := (endpointStep3_flags env
              { v with transcript_s3_key := some (tr.transcript_s3_key.getD "") }
              (steps ++ [⟨"transcribe", "success", none, none, none⟩]) dl true).2
            simp [endpointStep2, ht, he, hs, h3]
          · simp [endpointStep2, ht, he, hs]
  | some k =>
      have h3 := (endpointStep3_flags env v
        (steps ++ [⟨"transcribe", "skipped", none, some "already exists", none⟩]) dl false).2
      exact ⟨fun h => Option.noConfusion h, fun _ => by simp [endpointStep2, ht, h3]⟩

/-- Claim C1, counterexample: an item whose `audio_s3_key` is already
set (and `transcript_s3_key` unset) still has the fetch stage invoked
by the worker task body — there is no skip check in
pipeline_worker.py. -/
theorem worker_always_fetches_counterexample :
    (process_pipeline_body
      ⟨⟨true, "success", "audio/vid.mp3", none⟩,
        ProviderCall.ok ⟨"hello world", "en", 1⟩, Except.ok 1⟩
      ⟨1, "vid", "title", some "audio/vid.mp3", none,
        VStatus.AUDIO_DOWNLOADED, none, false⟩).downloadInvoked = true := by
  rfl

/-- Claim C1 amended: the stage-skip rule holds for the API endpoint
`process_video_pipeline` of content_studio.py, not for the worker task:
with `audio_key` set the endpoint skips the fetch stage (and runs
transcription exactly when `transcript_key` is unset), while the worker
task body invokes `download_audio` unconditionally. -/
theorem stage_skip_rule_endpoint_only (wenv : PipelineEnv) (eenv : EndpointEnv)
    (v : VideoRec) (ha : v.audio_s3_key ≠ none) :
    (process_pipeline_body wenv v).downloadInvoked = true ∧
    (content_studio_pipeline eenv v).downloadInvoked = false ∧
    (v.transcript_s3_key = none →
      (content_studio_pipeline eenv v).transcribeInvoked = true) ∧
    (v.transcript_s3_key ≠ none →
      (content_studio_pipeline eenv v).transcribeInvoked = false) := by
  cases hk : v.audio_s3_key with
  | none => exact absurd hk ha
  | some k =>
      have hcs : content_studio_pipeline eenv v
          = endpointStep2 eenv v
              [⟨"audio_download", "skipped", none, some "already exists", none⟩] false := by
        simp [content_studio_pipeline, hk]
      refine ⟨body_always_fetches wenv v, ?_, ?_, ?_⟩
      · rw [hcs]
        exact endpointStep2_download_flag eenv v _ false
      · intro h
        rw [hcs]
        exact (endpointStep2_transcribe_flag eenv v _ false).1 h
      · intro h
        rw [hcs]
        exact (endpointStep2_transcribe_flag eenv v _ false).2 h

/-- Witness for `stage_skip_rule_endpoint_only` on an item with the
audio key set and the transcript key unset. -/
theorem stage_skip_rule_endpoint_only_witness :
    (process_pipeline_body
      ⟨⟨true, "success", "audio/vid.mp3", none⟩,
        ProviderCall.ok ⟨"hello world", "en", 1⟩, Except.ok 1⟩
      ⟨1, "vid", "title", some "audio/vid.mp3", none,
        VStatus.AUDIO_DOWNLOADED, none, false⟩).downloadInvoked = true ∧
    (content_studio_pipeline
      ⟨Except.ok ⟨true, "success", "audio/vid.mp3", none⟩,
        Except.ok ⟨true, "success", some "transcripts/vid.json", none,
          some "hello world", some "en", 1⟩, Except.ok 1⟩
      ⟨1, "vid", "title", some "audio/vid.mp3", none,
        VStatus.AUDIO_DOWNLOADED, none, false⟩).downloadInvoked = false ∧
    ((⟨1, "vid", "title", some "audio/vid.mp3", none,
        VStatus.AUDIO_DOWNLOADED, none, false⟩ : VideoRec).transcript_s3_key = none →
      (content_studio_pipeline
        ⟨Except.ok ⟨true, "success", "audio/vid.mp3", none⟩,
          Except.ok ⟨true, "success", some "transcripts/vid.json", none,
            some "hello world", some "en", 1⟩, Except.ok 1⟩
        ⟨1, "vid", "title", some "audio/vid.mp3", none,
          VStatus.AUDIO_DOWNLOADED, none, false⟩).transcribeInvoked = true) ∧
    ((⟨1, "vid", "title", some "audio/vid.mp3", none,
        VStatus.AUDIO_DOWNLOADED, none, false⟩ : VideoRec).transcript_s3_key ≠ none →
      (content_studio_pipeline
        ⟨Except.ok ⟨true, "success", "audio/vid.mp3", none⟩,
          Except.ok ⟨true, "success", some "transcripts/vid.json", none,
            some "hello world", some "en", 1⟩, Except.ok 1⟩
        ⟨1, "vid", "title", some "audio/vid.mp3", none,
          VStatus.AUDIO_DOWNLOADED, none, false⟩).transcribeInvoked = false) :=
  stage_skip_rule_endpoint_only
    ⟨⟨true, "success", "audio/vid.mp3", none⟩,
      ProviderCall.ok ⟨"hello world", "en", 1⟩, Except.ok 1⟩
    ⟨Except.ok ⟨true, "success", "audio/vid.mp3", none⟩,
      Except.ok ⟨true, "success", some "transcripts/vid.json", none,
        some "hello world", some "en", 1⟩, Except.ok 1⟩
    ⟨1, "vid", "title", some "audio/vid.mp3", none,
      VStatus.AUDIO_DOWNLOADED, none, false⟩ (by simp)

/-- Claim C3 (code defect): every invocation of the worker task raises
`ImportError` at line 61 (`from app.services.llm_provider import
get_provider` — llm_provider.py only defines `get_llm_provider`), which
is before the `try:` block, so the exception escapes with the row left
exactly as it was: no `status = ERROR` and no message are written. -/
theorem pipeline_import_error_escapes_unrecorded (env : PipelineEnv) (v : VideoRec) :
    process_video_pipeline env v = PipelineOutcome.raised
      "ImportError: cannot import name get_provider from app.services.llm_provider" v := by
  unfold process_video_pipeline
  rw [if_neg (by decide)]

/-- Claim C4, counterexample: a provider response with empty text is
reported by `transcribe_audio` as success, with `transcript_text` the
empty string — no `TranscriptionError` exists in the code and no
empty-text check is made. -/
theorem transcriber_empty_text_counterexample :
    (transcribe_audio (ProviderCall.ok ⟨"", "en", 0⟩) "audio/x.mp3" "x").success = true ∧
    (transcribe_audio (ProviderCall.ok ⟨"", "en", 0⟩) "audio/x.mp3" "x").transcript_text
      = some "" :=
  ⟨rfl, rfl⟩

/-- Claim C4 amended: when the provider call raises, `transcribe_audio`
returns a failure dictionary carrying the message (it does not raise a
`TranscriptionError`); when the provider returns — even empty text — it
reports success; an empty transcript is rejected only later, by
`index_transcript`, which fails with `Transcript text is empty` before
any chunk is added. -/
theorem transcriber_failure_amended (msg key vid : String) (resp : WhisperResponse)
    (col : List ChunkRec) (dvid dyvid : String) (td : TranscriptData)
    (m : Option MetricsIn) (ht : td.text = "") :
    ((transcribe_audio (ProviderCall.exn msg) key vid).success = false ∧
      (transcribe_audio (ProviderCall.exn msg) key vid).error = some msg) ∧
    (transcribe_audio (ProviderCall.ok resp) key vid).success = true ∧
    index_transcript col dvid dyvid td m = Except.error "Transcript text is empty" := by
  refine ⟨⟨rfl, rfl⟩, rfl, ?_⟩
  simp [index_transcript, ht]

/-- Witness for `transcriber_failure_amended`: a timed-out provider
call, a successful one, and an indexing attempt on empty text. -/
theorem transcriber_failure_amended_witness :
    ((transcribe_audio (ProviderCall.exn "timeout") "audio/x.mp3" "x").success = false ∧
      (transcribe_audio (ProviderCall.exn "timeout") "audio/x.mp3" "x").error
        = some "timeout") ∧
    (transcribe_audio (ProviderCall.ok ⟨"hi", "en", 1⟩) "audio/x.mp3" "x").success = true ∧
    index_transcript [] "1" "x" ⟨"", some "en"⟩ none
      = Except.error "Transcript text is empty" :=
  transcriber_failure_amended "timeout" "audio/x.mp3" "x" ⟨"hi", "en", 1⟩
    [] "1" "x" ⟨"", some "en"⟩ none rfl

/-- Claim C5, counterexample: when the indexing stage fails, the
returned dictionary reports `step: "unknown"` — not the name of the
failing stage — because the failure is only caught by the generic
`except Exception` handler of pipeline_worker.py lines 164-168. -/
theorem index_failure_step_unknown_counterexample :
    ((process_pipeline_body
        ⟨⟨true, "success", "audio/vid.mp3", none⟩,
          ProviderCall.ok ⟨"hello world", "en", 1⟩, Except.error "boom"⟩
        ⟨1, "vid", "title", none, none, VStatus.SYNCED, none, false⟩).result.step
      = some "unknown") ∧
    ((process_pipeline_body
        ⟨⟨true, "success", "audio/vid.mp3", none⟩,
          ProviderCall.ok ⟨"hello world", "en", 1⟩, Except.error "boom"⟩
        ⟨1, "vid", "title", none, none, VStatus.SYNCED, none, false⟩).indexInvoked
      = true) ∧
    ((process_pipeline_body
        ⟨⟨true, "success", "audio/vid.mp3", none⟩,
          ProviderCall.ok ⟨"hello world", "en", 1⟩, Except.error "boom"⟩
        ⟨1, "vid", "title", none, none, VStatus.SYNCED, none, false⟩).result.step
      ≠ some "index") ∧
    ((process_pipeline_body
        ⟨⟨true, "success", "audio/vid.mp3", none⟩,
          ProviderCall.ok ⟨"hello world", "en", 1⟩, Except.error "boom"⟩
        ⟨1, "vid", "title", none, none, VStatus.SYNCED, none, false⟩).result.step
      ≠ some "indexing") ∧
    ((process_pipeline_body
        ⟨⟨true, "success", "audio/vid.mp3", none⟩,
          ProviderCall.ok ⟨"hello world", "en", 1⟩, Except.error "boom"⟩
        ⟨1, "vid", "title", none, none, VStatus.SYNCED, none, false⟩).result.step
      ≠ some "vector_index") := by
  refine ⟨rfl, rfl, by decide, by decide, by decide⟩

/-- Claim C5 amended: a fetch or transcription failure returns its
stage name (`audio_download`, `transcription`) together with the error
message, sets status `ERROR`, and attempts no later stage; an indexing
failure also sets `ERROR` with the message and attempts nothing
further, but its returned step name is `"unknown"` rather than the
stage name. -/
theorem stage_failure_reporting_amended (env : PipelineEnv) (v : VideoRec) :
    (env.audioResult.success = false →
      (process_pipeline_body env v).result.step = some "audio_download" ∧
      (process_pipeline_body env v).result.success = false ∧
      (process_pipeline_body env v).result.error
        = some (env.audioResult.error.getD "Unknown audio download error") ∧
      (process_pipeline_body env v).video.processing_status = VStatus.ERROR ∧
      (process_pipeline_body env v).transcribeInvoked = false ∧
      (process_pipeline_body env v).indexInvoked = false) ∧
    (∀ m, env.whisper = ProviderCall.exn m → env.audioResult.success = true →
      (process_pipeline_body env v).result.step = some "transcription" ∧
      (process_pipeline_body env v).result.success = false ∧
      (process_pipeline_body env v).result.error = some m ∧
      (process_pipeline_body env v).video.processing_status = VStatus.ERROR ∧
      (process_pipeline_body env v).indexInvoked = false) ∧
    (∀ m resp, env.whisper = ProviderCall.ok resp → env.audioResult.success = true →
      env.indexResult = Except.error m →
      (process_pipeline_body env v).result.step = some "unknown" ∧
      (process_pipeline_body env v).result.success = false ∧
      (process_pipeline_body env v).result.error = some m ∧
      (process_pipeline_body env v).video.processing_status = VStatus.ERROR) := by
  refine ⟨fun h1 => ?_, fun m hw h1 => ?_, fun m resp hw h1 hi => ?_⟩
  · simp [process_pipeline_body, h1, update_video_status]
  · simp [process_pipeline_body, h1, hw, transcribe_audio, update_video_status]
  · simp [process_pipeline_body, h1, hw, hi, transcribe_audio, update_video_status]

/-- Witness for `stage_failure_reporting_amended`: one failing run per
stage. -/
theorem stage_failure_reporting_amended_witness :
    (process_pipeline_body
      ⟨⟨false, "error", "", some "network down"⟩, ProviderCall.exn "x", Except.ok 0⟩
      ⟨1, "vid", "title", none, none, VStatus.SYNCED, none, false⟩).result.step
      = some "audio_download" ∧
    (process_pipeline_body
      ⟨⟨true, "success", "audio/vid.mp3", none⟩, ProviderCall.exn "timeout", Except.ok 0⟩
      ⟨1, "vid", "title", none, none, VStatus.SYNCED, none, false⟩).result.step
      = some "transcription" ∧
    (process_pipeline_body
      ⟨⟨true, "success", "audio/vid.mp3", none⟩,
        ProviderCall.ok ⟨"hello world", "en", 1⟩, Except.error "boom"⟩
      ⟨1, "vid", "title", none, none, VStatus.SYNCED, none, false⟩).result.step
      = some "unknown" :=
  ⟨((stage_failure_reporting_amended
      ⟨⟨false, "error", "", some "network down"⟩, ProviderCall.exn "x", Except.ok 0⟩
      ⟨1, "vid", "title", none, none, VStatus.SYNCED, none, false⟩).1 rfl).1,
   ((stage_failure_reporting_amended
      ⟨⟨true, "success", "audio/vid.mp3", none⟩, ProviderCall.exn "timeout", Except.ok 0⟩
      ⟨1, "vid", "title", none, none, VStatus.SYNCED, none, false⟩).2.1
      "timeout" rfl rfl).1,
   ((stage_failure_reporting_amended
      ⟨⟨true, "success", "audio/vid.mp3", none⟩,
        ProviderCall.ok ⟨"hello world", "en", 1⟩, Except.error "boom"⟩
      ⟨1, "vid", "title", none, none, VStatus.SYNCED, none, false⟩).2.2
      "boom" ⟨"hello world", "en", 1⟩ rfl rfl rfl).1⟩

/-- Claim C6, counterexample: a download failure whose error message is
the empty string (`{"success": False, "error": ""}`, e.g. `str(e)` of a
bare exception) drives the row to `status = ERROR` while
`update_video_status` ignores the falsy message (`if error:`), leaving
`processing_error` at its previous `None`. -/
theorem error_status_null_error_counterexample :
    ((process_pipeline_body
        ⟨⟨false, "error", "", some ""⟩, ProviderCall.exn "x", Except.ok 0⟩
        ⟨1, "vid", "title", none, none, VStatus.SYNCED, none, false⟩).video.processing_status
      = VStatus.ERROR) ∧
    ((process_pipeline_body
        ⟨⟨false, "error", "", some ""⟩, ProviderCall.exn "x", Except.ok 0⟩
        ⟨1, "vid", "title", none, none, VStatus.SYNCED, none, false⟩).video.processing_error
      = none) :=
  ⟨rfl, rfl⟩

/-- Claim C6 amended: a transition to `ERROR` carrying a non-empty
message stores that message, and no pipeline write ever clears
`audio_s3_key`, `transcript_s3_key` or an already-stored error — but
`update_video_status` ignores an empty message, so a run can end in
`ERROR` with `processing_error` still `None` when the failure message
was the empty string. -/
theorem error_transition_amended (v : VideoRec) (s : VStatus) (msg : String)
    (env : PipelineEnv) (hm : msg ≠ "") :
    (update_video_status v s (some msg)).processing_error = some msg ∧
    (update_video_status v s (some msg)).processing_status = s ∧
    (update_video_status v s (some msg)).audio_s3_key = v.audio_s3_key ∧
    (update_video_status v s (some msg)).transcript_s3_key = v.transcript_s3_key ∧
    ((process_pipeline_body env v).video.audio_s3_key = none →
      v.audio_s3_key = none) ∧
    ((process_pipeline_body env v).video.transcript_s3_key = none →
      v.transcript_s3_key = none) ∧
    ((process_pipeline_body env v).video.processing_error = none →
      v.processing_error = none) := by
  refine ⟨(update_video_status_fields v s (some msg)).2.2.2 msg hm,
    (update_video_status_fields v s (some msg)).1,
    (update_video_status_fields v s (some msg)).2.1,
    (update_video_status_fields v s (some msg)).2.2.1,
    (body_keys_monotone env v).1,
    (body_keys_monotone env v).2,
    body_error_monotone env v⟩

/-- Witness for `error_transition_amended`: a transcription timeout on
an item whose audio key is set. -/
theorem error_transition_amended_witness :
    (update_video_status
      ⟨1, "vid", "title", some "audio/vid.mp3", none, VStatus.TRANSCRIBING, none, false⟩
      VStatus.ERROR (some "timeout")).processing_error = some "timeout" ∧
    (update_video_status
      ⟨1, "vid", "title", some "audio/vid.mp3", none, VStatus.TRANSCRIBING, none, false⟩
      VStatus.ERROR (some "timeout")).processing_status = VStatus.ERROR ∧
    (update_video_status
      ⟨1, "vid", "title", some "audio/vid.mp3", none, VStatus.TRANSCRIBING, none, false⟩
      VStatus.ERROR (some "timeout")).audio_s3_key = some "audio/vid.mp3" ∧
    (update_video_status
      ⟨1, "vid", "title", some "audio/vid.mp3", none, VStatus.TRANSCRIBING, none, false⟩
      VStatus.ERROR (some "timeout")).transcript_s3_key = none ∧
    ((process_pipeline_body
        ⟨⟨true, "success", "audio/vid.mp3", none⟩, ProviderCall.exn "timeout", Except.ok 0⟩
        ⟨1, "vid", "title", some "audio/vid.mp3", none, VStatus.TRANSCRIBING, none, false⟩).video.audio_s3_key
        = none →
      (⟨1, "vid", "title", some "audio/vid.mp3", none, VStatus.TRANSCRIBING, none, false⟩
        : VideoRec).audio_s3_key = none) ∧
    ((process_pipeline_body
        ⟨⟨true, "success", "audio/vid.mp3", none⟩, ProviderCall.exn "timeout", Except.ok 0⟩
        ⟨1, "vid", "title", some "audio/vid.mp3", none, VStatus.TRANSCRIBING, none, false⟩).video.transcript_s3_key
        = none →
      (⟨1, "vid", "title", some "audio/vid.mp3", none, VStatus.TRANSCRIBING, none, false⟩
        : VideoRec).transcript_s3_key = none) ∧
    ((process_pipeline_body
        ⟨⟨true, "success", "audio/vid.mp3", none⟩, ProviderCall.exn "timeout", Except.ok 0⟩
        ⟨1, "vid", "title", some "audio/vid.mp3", none, VStatus.TRANSCRIBING, none, false⟩).video.processing_error
        = none →
      (⟨1, "vid", "title", some "audio/vid.mp3", none, VStatus.TRANSCRIBING, none, false⟩
        : VideoRec).processing_error = none) :=
  error_transition_amended
    ⟨1, "vid", "title", some "audio/vid.mp3", none, VStatus.TRANSCRIBING, none, false⟩
    VStatus.ERROR "timeout"
    ⟨⟨true, "success", "audio/vid.mp3", none⟩, ProviderCall.exn "timeout", Except.ok 0⟩
    (by decide)

/-- Claim C9: `update_video_status` with `error=None` (every
non-failure transition) leaves `processing_error` unchanged — as does
an empty-string message — and a full successful re-run ends in
`COMPLETE` while still carrying whatever error message a previous
failed run stored. -/
theorem status_update_preserves_error (v : VideoRec) (s : VStatus)
    (env : PipelineEnv) (resp : WhisperResponse) (n : Nat) :
    (update_video_status v s none).processing_error = v.processing_error ∧
    (update_video_status v s (some "")).processing_error = v.processing_error ∧
    (env.audioResult.success = true → env.whisper = ProviderCall.ok resp →
      env.indexResult = Except.ok n →
      (process_pipeline_body env v).video.processing_status = VStatus.COMPLETE ∧
      (process_pipeline_body env v).video.processing_error = v.processing_error) := by
  refine ⟨rfl, by simp [update_video_status], fun h1 hw hi => ?_⟩
  simp [process_pipeline_body, h1, hw, hi, transcribe_audio, update_video_status]

/-- Witness for `status_update_preserves_error`: a row that failed
earlier (`processing_error = some "earlier failure"`) is reprocessed
successfully and still carries the old message at `COMPLETE`. -/
theorem status_update_preserves_error_witness :
    (update_video_status
      ⟨1, "vid", "title", none, none, VStatus.ERROR, some "earlier failure", false⟩
      VStatus.AUDIO_DOWNLOADING none).processing_error = some "earlier failure" ∧
    (update_video_status
      ⟨1, "vid", "title", none, none, VStatus.ERROR, some "earlier failure", false⟩
      VStatus.AUDIO_DOWNLOADING (some "")).processing_error = some "earlier failure" ∧
    ((process_pipeline_body
        ⟨⟨true, "success", "audio/vid.mp3", none⟩,
          ProviderCall.ok ⟨"hello world", "en", 1⟩, Except.ok 2⟩
        ⟨1, "vid", "title", none, none, VStatus.ERROR, some "earlier failure",
          false⟩).video.processing_status = VStatus.COMPLETE ∧
      (process_pipeline_body
        ⟨⟨true, "success", "audio/vid.mp3", none⟩,
          ProviderCall.ok ⟨"hello world", "en", 1⟩, Except.ok 2⟩
        ⟨1, "vid", "title", none, none, VStatus.ERROR, some "earlier failure",
          false⟩).video.processing_error = some "earlier failure") :=
  ⟨(status_update_preserves_error
      ⟨1, "vid", "title", none, none, VStatus.ERROR, some "earlier failure", false⟩
      VStatus.AUDIO_DOWNLOADING
      ⟨⟨true, "success", "audio/vid.mp3", none⟩,
        ProviderCall.ok ⟨"hello world", "en", 1⟩, Except.ok 2⟩
      ⟨"hello world", "en", 1⟩ 2).1,
   (status_update_preserves_error
      ⟨1, "vid", "title", none, none, VStatus.ERROR, some "earlier failure", false⟩
      VStatus.AUDIO_DOWNLOADING
      ⟨⟨true, "success", "audio/vid.mp3", none⟩,
        ProviderCall.ok ⟨"hello world", "en", 1⟩, Except.ok 2⟩
      ⟨"hello world", "en", 1⟩ 2).2.1,
   (status_update_preserves_error
      ⟨1, "vid", "title", none, none, VStatus.ERROR, some "earlier failure", false⟩
      VStatus.AUDIO_DOWNLOADING
      ⟨⟨true, "success", "audio/vid.mp3", none⟩,
        ProviderCall.ok ⟨"hello world", "en", 1⟩, Except.ok 2⟩
      ⟨"hello world", "en", 1⟩ 2).2.2 rfl rfl rfl⟩
